import Mathlib

/-!
Shallow embedding of the pg_incremental incremental pipeline engine.

Sources embedded here:
- src/src/pipeline.c      (registry, lifecycle dispatch, ownership)
- src/src/file_list.c     (enumerable-set delta strategy, batching, processed log)
- src/include/crunchy/incremental/pipeline.h (PipelineType, PipelineDesc)

Conventions of the embedding:
- PostgreSQL OIDs are Nat; TimestampTz values are Int (microseconds).
- The transactional store is a record of association lists, one per table.
- ereport(ERROR, ...) / elog(ERROR, ...) become an Except error; the
  surrounding transaction abort is outside the function boundary, so a
  function that raises an error after switching user identity reports the
  identity that was in effect when the error escaped.
- The external file enumerator (the list function invoked inside the SQL
  query of GetUnprocessedFileList) is a parameter
  listOut : String -> String -> List String (list function name, pattern).
- The user command is kept abstract; an execution trace records the argument
  arrays the command was invoked with, the processed-log insertions, and
  the outcome.  A failure oracle fails : Nat -> Bool says whether the
  i-th command invocation of a run raises an error.
-/

namespace Incremental

/-- User identity as captured and set by GetUserIdAndSecContext /
SetUserIdAndSecContext (miscadmin.h): user OID plus security context flags. -/
structure IdentityState where
  userId : Nat
  secContext : Nat
deriving DecidableEq

/-- The BOOTSTRAP_SUPERUSERID constant from catalog/pg_authid.h. -/
def BOOTSTRAP_SUPERUSERID : Nat := 10

/-- The SECURITY_LOCAL_USERID_CHANGE flag from miscadmin.h. -/
def SECURITY_LOCAL_USERID_CHANGE : Nat := 1

/-- Identity in effect after
SetUserIdAndSecContext(BOOTSTRAP_SUPERUSERID, SECURITY_LOCAL_USERID_CHANGE),
the elevation performed by every registry accessor in the source. -/
def elevatedIdentity : IdentityState :=
  { userId := BOOTSTRAP_SUPERUSERID, secContext := SECURITY_LOCAL_USERID_CHANGE }

/-- Errors raised via ereport(ERROR, ...) / elog(ERROR, ...), tagged by the
errcode used at the raise site. -/
inductive PgError where
  | undefinedObject (msg : String)
  | insufficientPrivilege (msg : String)
  | internalError (msg : String)
deriving DecidableEq

/-- PipelineType is a char code (include/crunchy/incremental/pipeline.h line 6). -/
abbrev PipelineType := Char

/-- Kind code for sequence pipelines (pipeline.h line 3). -/
def SEQUENCE_RANGE_PIPELINE : PipelineType := 's'

/-- Kind code for time-interval pipelines (pipeline.h line 4).  These are the
only two kind codes defined in the header. -/
def TIME_INTERVAL_PIPELINE : PipelineType := 't'

/-- One row of the incremental.pipelines registry table
(columns of the insert in InsertPipeline, pipeline.c lines 257-260). -/
structure PipelineRow where
  pipelineType : PipelineType
  ownerId : Nat
  sourceRelationId : Nat
  command : String
deriving DecidableEq

/-- PipelineDesc (pipeline.h lines 11-27). -/
structure PipelineDesc where
  pipelineName : String
  pipelineType : PipelineType
  ownerId : Nat
  sourceRelationId : Nat
  command : String
deriving DecidableEq

/-- One row of incremental.file_list_pipelines
(InitializeFileListPipelineState, file_list.c lines 70-88).  max_batch_size
is nullable: the insert passes NULL when the given value is not positive. -/
structure FileListRow where
  filePattern : String
  batched : Bool
  listFunction : String
  maxBatchSize : Option Int
deriving DecidableEq

/-- Sequence-pipeline checkpoint row (table owned by sequence.c, which is not
under src/; the fields follow the spec's SequenceRange checkpoint:
the last-processed sequence value). -/
structure SequenceState where
  sequenceId : Nat
  lastProcessedValue : Int
deriving DecidableEq

/-- Time-interval checkpoint row (table owned by time_interval.c, which is not
under src/; fields follow the spec's TimeInterval checkpoint: last-processed
boundary, interval width, minimum delay, plus the configured start time). -/
structure TimeIntervalState where
  batched : Bool
  startTime : Int
  timeInterval : Int
  minDelay : Int
  lastProcessedTime : Int
deriving DecidableEq

/-- The transactional store: one association list per persisted table, plus
the list of scheduled cron job names. -/
structure EngineState where
  pipelines : List (String × PipelineRow)
  seqStates : List (String × SequenceState)
  timeStates : List (String × TimeIntervalState)
  fileListStates : List (String × FileListRow)
  processedFiles : List (String × String)
  cronJobs : List String
deriving DecidableEq

/-- An engine state with every table empty. -/
def emptyEngineState : EngineState :=
  { pipelines := [], seqStates := [], timeStates := [], fileListStates := [],
    processedFiles := [], cronJobs := [] }

/-- Point update of an association list (the effect of an SQL UPDATE by key). -/
def updateAssoc {β : Type} (l : List (String × β)) (k : String) (f : β → β) :
    List (String × β) :=
  l.map (fun p => if p.1 = k then (p.1, f p.2) else p)

/-- InsertPipeline result: the new registry table, the user OID that was in
effect while the insert ran, and the identity after the function returns. -/
structure InsertPipelineResult where
  pipelines : List (String × PipelineRow)
  insertUserId : Nat
  finalIdentity : IdentityState
deriving DecidableEq

/-- InsertPipeline (pipeline.c lines 243-286): captures the caller identity
into savedUserId, elevates to the bootstrap superuser, inserts the descriptor
row with owner_id := savedUserId (line 269), and restores the saved identity. -/
def InsertPipeline (pipelines : List (String × PipelineRow)) (ident : IdentityState)
    (pipelineName : String) (pipelineType : PipelineType) (sourceRelationId : Nat)
    (command : String) : InsertPipelineResult :=
  let savedUserId := ident.userId
  let savedSecurityContext := ident.secContext
  let row : PipelineRow :=
    { pipelineType := pipelineType, ownerId := savedUserId,
      sourceRelationId := sourceRelationId, command := command }
  { pipelines := pipelines ++ [(pipelineName, row)],
    insertUserId := elevatedIdentity.userId,
    finalIdentity := { userId := savedUserId, secContext := savedSecurityContext } }

/-- ReadPipelineDesc (pipeline.c lines 292-362): elevates to the bootstrap
superuser, selects the descriptor row, and restores the saved identity at
line 359.  When no row matches, the ereport(ERROR) at lines 334-336 leaves
the function before the restore runs, so the error escapes with the elevated
identity still in effect.  Returns (identity in effect at exit, result). -/
def ReadPipelineDesc (pipelines : List (String × PipelineRow)) (pipelineName : String)
    (ident : IdentityState) : IdentityState × Except PgError PipelineDesc :=
  match pipelines.lookup pipelineName with
  | none =>
      (elevatedIdentity,
       .error (.undefinedObject ("no such pipeline named " ++ pipelineName)))
  | some row =>
      (ident,
       .ok { pipelineName := pipelineName, pipelineType := row.pipelineType,
             ownerId := row.ownerId, sourceRelationId := row.sourceRelationId,
             command := row.command })

/-- EnsurePipelineOwner (pipeline.c lines 370-379): superusers pass; otherwise
the caller must be the recorded owner. -/
def EnsurePipelineOwner (isSuper : Bool) (callerId : Nat) (pipelineName : String)
    (ownerId : Nat) : Except PgError Unit :=
  if isSuper then .ok ()
  else if ownerId ≠ callerId then
    .error (.insufficientPrivilege ("permission denied for pipeline " ++ pipelineName))
  else .ok ()

/-- ExecutePipeline dispatch (pipeline.c lines 385-401).  The bodies of
ExecuteSequenceRangePipeline / ExecuteTimeIntervalPipeline live in sequence.c
/ time_interval.c, which are not under src/, so they are parameters. -/
def ExecutePipelineKind (seqAct timeAct : EngineState → Except PgError EngineState)
    (pipelineType : PipelineType) (st : EngineState) : Except PgError EngineState :=
  if pipelineType = SEQUENCE_RANGE_PIPELINE then seqAct st
  else if pipelineType = TIME_INTERVAL_PIPELINE then timeAct st
  else .error (.internalError "unknown pipeline type")

/-- Modelled from the spec: UpdateLastProcessedSequenceNumber is declared in
crunchy/incremental/sequence.h and implemented in sequence.c, which is not
under src/.  Per section 4.4 of the spec the advance operation atomically
sets the checkpoint to the given bound, so the update writes the given value
into the last-processed field. -/
def UpdateLastProcessedSequenceNumber (st : SequenceState) (value : Int) : SequenceState :=
  { st with lastProcessedValue := value }

/-- Modelled from the spec: UpdateLastProcessedTimeInterval is declared in
crunchy/incremental/time_interval.h and implemented in time_interval.c, which
is not under src/.  Per section 4.4 of the spec the advance operation
atomically sets the checkpoint to the given bound, so the update writes the
given value into the last-processed boundary field. -/
def UpdateLastProcessedTimeInterval (st : TimeIntervalState) (value : Int) : TimeIntervalState :=
  { st with lastProcessedTime := value }

/-- Modelled from the spec: InitializeTimeRangePipelineState is declared in
crunchy/incremental/time_interval.h and implemented in time_interval.c, which
is not under src/.  Per sections 3 and 4.4 of the spec the initial checkpoint
value of a TimeInterval pipeline is the configured start time. -/
def InitializeTimeRangePipelineState (batched : Bool)
    (startTime timeInterval minDelay : Int) : TimeIntervalState :=
  { batched := batched, startTime := startTime, timeInterval := timeInterval,
    minDelay := minDelay, lastProcessedTime := startTime }

/-- ResetPipeline dispatch (pipeline.c lines 407-423): sequence pipelines get
UpdateLastProcessedSequenceNumber(name, 0), time-interval pipelines get
UpdateLastProcessedTimeInterval(name, 0); any other kind code is a fatal
elog(ERROR). -/
def ResetPipelineKind (pipelineType : PipelineType) (pipelineName : String)
    (st : EngineState) : Except PgError EngineState :=
  if pipelineType = SEQUENCE_RANGE_PIPELINE then
    let newSeq := updateAssoc st.seqStates pipelineName
      (fun s => UpdateLastProcessedSequenceNumber s 0)
    .ok { st with seqStates := newSeq }
  else if pipelineType = TIME_INTERVAL_PIPELINE then
    let newTime := updateAssoc st.timeStates pipelineName
      (fun s => UpdateLastProcessedTimeInterval s 0)
    .ok { st with timeStates := newTime }
  else .error (.internalError "unknown pipeline type")

/-- DeletePipeline (pipeline.c lines 429-467): deletes the descriptor rows
matching the name from incremental.pipelines. -/
def DeletePipeline (st : EngineState) (pipelineName : String) : EngineState :=
  { st with pipelines := st.pipelines.filter (fun p => p.1 ≠ pipelineName) }

/-- GetCronJobNameForPipeline (pipeline.c lines 473-477). -/
def GetCronJobNameForPipeline (pipelineName : String) : String :=
  "pipeline:" ++ pipelineName

/-- Modelled from the spec: UnscheduleCronJob is declared in
crunchy/incremental/cron.h and implemented outside src/.  Per sections 4.3
and 6 of the spec, deregistration removes the job by name and the absence of
a prior schedule is not an error. -/
def UnscheduleCronJob (jobName : String) (jobs : List String) : List String :=
  jobs.filter (fun j => j ≠ jobName)

/-- incremental_execute_pipeline (pipeline.c lines 193-203): read the
descriptor, enforce ownership, dispatch execution by kind. -/
def incremental_execute_pipeline (seqAct timeAct : EngineState → Except PgError EngineState)
    (pipelineName : String) (ident : IdentityState) (isSuper : Bool)
    (st : EngineState) : Except PgError EngineState := do
  let desc ← (ReadPipelineDesc st.pipelines pipelineName ident).2
  let _ ← EnsurePipelineOwner isSuper ident.userId pipelineName desc.ownerId
  ExecutePipelineKind seqAct timeAct desc.pipelineType st

/-- incremental_reset_pipeline (pipeline.c lines 209-219): read the
descriptor, enforce ownership, dispatch the reset by kind. -/
def incremental_reset_pipeline (pipelineName : String) (ident : IdentityState)
    (isSuper : Bool) (st : EngineState) : Except PgError EngineState := do
  let desc ← (ReadPipelineDesc st.pipelines pipelineName ident).2
  let _ ← EnsurePipelineOwner isSuper ident.userId pipelineName desc.ownerId
  ResetPipelineKind desc.pipelineType pipelineName st

/-- incremental_drop_pipeline (pipeline.c lines 225-237): read the
descriptor, enforce ownership, delete the descriptor, unschedule the cron
job for the pipeline. -/
def incremental_drop_pipeline (pipelineName : String) (ident : IdentityState)
    (isSuper : Bool) (st : EngineState) : Except PgError EngineState := do
  let desc ← (ReadPipelineDesc st.pipelines pipelineName ident).2
  let _ ← EnsurePipelineOwner isSuper ident.userId pipelineName desc.ownerId
  let st2 := DeletePipeline st pipelineName
  pure { st2 with
           cronJobs := UnscheduleCronJob (GetCronJobNameForPipeline pipelineName) st2.cronJobs }

/-- FileList (file_list.c lines 30-35). -/
structure FileList where
  files : List String
  batched : Bool
  maxBatchSize : Int
deriving DecidableEq

/-- InitializeFileListPipelineState (file_list.c lines 56-101): inserts the
file-list pipeline row; the max_batch_size column is NULL unless the given
value is positive (argNulls at line 87). -/
def InitializeFileListPipelineState (rows : List (String × FileListRow))
    (pipelineName pattern : String) (batched : Bool) (listFunction : String)
    (maxBatchSize : Int) : List (String × FileListRow) :=
  rows ++ [(pipelineName,
    { filePattern := pattern, batched := batched, listFunction := listFunction,
      maxBatchSize := if 0 < maxBatchSize then some maxBatchSize else none })]

/-- The maxBatchSize value read back by GetUnprocessedFilesForPipeline
(file_list.c lines 332-335): -1 when the stored column is NULL. -/
def effMaxBatchSize (stored : Option Int) : Int :=
  stored.getD (-1)

/-- GetUnprocessedFileList (file_list.c lines 363-433): runs the enumerator
over the pattern and keeps the paths that have no row in
incremental.processed_files for this pipeline (LEFT JOIN ... WHERE proc.path
IS NULL, lines 384-391).  listOut is the external enumerator: it maps the
list-function name and the file pattern to the current output rows. -/
def GetUnprocessedFileList (listOut : String → String → List String)
    (processed : List (String × String)) (pipelineName listFunction filePattern : String) :
    List String :=
  (listOut listFunction filePattern).filter
    (fun path => decide ((pipelineName, path) ∉ processed))

/-- GetUnprocessedFilesForPipeline (file_list.c lines 276-356): reads the
file-list pipeline row (erroring when it is absent, lines 318-321), then
builds the FileList from the stored properties and the unprocessed delta. -/
def GetUnprocessedFilesForPipeline (rows : List (String × FileListRow))
    (processed : List (String × String)) (listOut : String → String → List String)
    (pipelineName : String) : Except PgError FileList :=
  match rows.lookup pipelineName with
  | none =>
      .error (.undefinedObject ("pipeline " ++ pipelineName ++ " cannot be found"))
  | some row =>
      .ok { files := GetUnprocessedFileList listOut processed pipelineName
                       row.listFunction row.filePattern,
            batched := row.batched,
            maxBatchSize := effMaxBatchSize row.maxBatchSize }

/-- InsertProcessedFile (file_list.c lines 440-488): elevates, inserts the
(pipeline_name, path) row, checks SPI_processed, restores the identity.  The
insert statement always reports one processed row, so the error branch at
lines 480-483 cannot fire; it is kept here as in the source.  Returns
(identity in effect at exit, new processed_files table or error). -/
def InsertProcessedFile (processed : List (String × String)) (pipelineName path : String)
    (ident : IdentityState) : IdentityState × Except PgError (List (String × String)) :=
  let inserted := processed ++ [(pipelineName, path)]
  let rowsProcessed := inserted.length - processed.length
  if rowsProcessed ≤ 0 then
    (elevatedIdentity,
     .error (.undefinedObject ("pipeline " ++ pipelineName ++ " cannot be found")))
  else (ident, .ok inserted)

/-- RemoveProcessedFileList (file_list.c lines 494-541): elevates, deletes
all processed_files rows of the pipeline, and raises
ereport(ERROR, ERRCODE_UNDEFINED_OBJECT) when SPI_processed is zero, i.e.
when no row was deleted (lines 533-536); on that path the restore at line
540 does not run.  Returns (identity in effect at exit, result). -/
def RemoveProcessedFileList (processed : List (String × String)) (pipelineName : String)
    (ident : IdentityState) : IdentityState × Except PgError (List (String × String)) :=
  let remaining := processed.filter (fun row => row.1 ≠ pipelineName)
  let rowsProcessed := processed.length - remaining.length
  if rowsProcessed ≤ 0 then
    (elevatedIdentity,
     .error (.undefinedObject ("pipeline " ++ pipelineName ++ " cannot be found")))
  else (ident, .ok remaining)

/-- The chunk size computed by ExecuteBatchedFileListPipeline
(file_list.c lines 190-193): the remaining file count, capped at
maxBatchSize when maxBatchSize is positive. -/
def batchFileCount (files : List String) (maxBatchSize : Int) (offset : Nat) : Nat :=
  let fileCount := files.length - offset
  if 0 < maxBatchSize ∧ maxBatchSize < (fileCount : Int) then maxBatchSize.toNat
  else fileCount

/-- The chunk assembled by ExecuteBatchedFileListPipeline (file_list.c lines
195-215): the files from the offset on, stopping after maxBatchSize entries
when maxBatchSize is positive. -/
def batchChunk (files : List String) (maxBatchSize : Int) (offset : Nat) : List String :=
  (files.drop offset).take (batchFileCount files maxBatchSize offset)

/-- The chunk sequence produced by the do-while loop of
ExecuteFileListPipeline (file_list.c lines 122-130): one chunk per
iteration, the offset advancing by maxBatchSize, looping while maxBatchSize
is positive and the offset is still below the delta length. -/
def batchedRun (files : List String) (maxBatchSize : Int) (offset : Nat) :
    List (List String) :=
  let chunk := batchChunk files maxBatchSize offset
  if _h : 0 < maxBatchSize ∧ offset + maxBatchSize.toNat < files.length then
    chunk :: batchedRun files maxBatchSize (offset + maxBatchSize.toNat)
  else
    [chunk]
termination_by files.length - offset
decreasing_by
  omega

/-- Outcome of one ExecuteFileListPipeline run. -/
inductive ExecOutcome where
  | noFiles
  | completed
  | failed (invocationIndex : Nat)
deriving DecidableEq

/-- Observable trace of one ExecuteFileListPipeline run: the argument
arrays the user command was invoked with (in order), the paths appended to
the processed log via InsertProcessedFile (in order), and the outcome. -/
structure ExecTrace where
  invocations : List (List String)
  logged : List String
  outcome : ExecOutcome
deriving DecidableEq

/-- The per-unit loop shared by the batched and non-batched branches of
ExecuteFileListPipeline: for each unit (a chunk, or a single file) the user
command is invoked, and on success every path of the unit is appended to the
processed log before the next unit starts; a failing invocation aborts the
run before any of its unit's paths are logged (file_list.c lines 124-131 and
136-145, with the per-unit bodies at lines 186-236 and 154-179). -/
def runUnits (fails : Nat → Bool) : List (List String) → Nat → ExecTrace
  | [], _ => { invocations := [], logged := [], outcome := .completed }
  | unit :: rest, i =>
    if fails i then
      { invocations := [unit], logged := [], outcome := .failed i }
    else
      let r := runUnits fails rest (i + 1)
      { invocations := unit :: r.invocations, logged := unit ++ r.logged,
        outcome := r.outcome }

/-- ExecuteFileListPipeline (file_list.c lines 107-147) on an already
computed FileList: empty delta reports the no-files outcome (lines 113-118);
a batched pipeline runs the chunk loop; a non-batched pipeline handles the
files one at a time. -/
def ExecuteFileListPipelineRun (files : List String) (batched : Bool)
    (maxBatchSize : Int) (fails : Nat → Bool) : ExecTrace :=
  if files = [] then { invocations := [], logged := [], outcome := .noFiles }
  else if batched then runUnits fails (batchedRun files maxBatchSize 0) 0
  else runUnits fails (files.map (fun f => [f])) 0

/-- ExecuteFileListPipeline (file_list.c lines 107-147) end to end:
compute the unprocessed FileList for the pipeline, then run it. -/
def ExecuteFileListPipelineTop (rows : List (String × FileListRow))
    (processed : List (String × String)) (listOut : String → String → List String)
    (pipelineName : String) (fails : Nat → Bool) : Except PgError ExecTrace := do
  let fileList ← GetUnprocessedFilesForPipeline rows processed listOut pipelineName
  pure (ExecuteFileListPipelineRun fileList.files fileList.batched
          fileList.maxBatchSize fails)

/-- The state written by the sequence branch of the reset dispatch. -/
def resetSeqResult (st : EngineState) (pipelineName : String) : EngineState :=
  let newSeq := updateAssoc st.seqStates pipelineName
    (fun s => UpdateLastProcessedSequenceNumber s 0)
  { st with seqStates := newSeq }

/-- The state written by the time-interval branch of the reset dispatch. -/
def resetTimeResult (st : EngineState) (pipelineName : String) : EngineState :=
  let newTime := updateAssoc st.timeStates pipelineName
    (fun s => UpdateLastProcessedTimeInterval s 0)
  { st with timeStates := newTime }

/-- Example file-list pipeline row used by concrete witnesses. -/
def exampleFileListRow : FileListRow :=
  { filePattern := "*.csv", batched := true, listFunction := "list", maxBatchSize := some 2 }

/-- Example descriptor row owned by user 7, used by concrete witnesses. -/
def ownedRow : PipelineRow :=
  { pipelineType := SEQUENCE_RANGE_PIPELINE, ownerId := 7, sourceRelationId := 0,
    command := "select 1" }

/-- Example engine state holding one descriptor owned by user 7. -/
def ownedState : EngineState :=
  { emptyEngineState with pipelines := [("p", ownedRow)] }

/-- Example sequence checkpoint with a non-zero last-processed value. -/
def seqStateAt7 : SequenceState := { sequenceId := 100, lastProcessedValue := 7 }

/-- Example time-interval checkpoint created with configured start time 5. -/
def tiStateStart5 : TimeIntervalState := InitializeTimeRangePipelineState true 5 3600 0

/-- Example engine state holding sequence and time-interval checkpoints for
pipeline p, the time-interval one configured with start time 5. -/
def engineBothCheckpoints : EngineState :=
  { emptyEngineState with
    seqStates := [("p", seqStateAt7)]
    timeStates := [("p", tiStateStart5)] }

/-! Helper lemmas about the batching loop. -/

theorem batchChunk_of_loop (files : List String) (k : Int) (offset : Nat)
    (h : 0 < k ∧ offset + k.toNat < files.length) :
    batchChunk files k offset = (files.drop offset).take k.toNat := by
  have hcount : batchFileCount files k offset = k.toNat := by
    unfold batchFileCount
    rw [if_pos]
    exact ⟨h.1, by omega⟩
  rw [batchChunk, hcount]

theorem batchChunk_of_last (files : List String) (k : Int) (offset : Nat)
    (h : ¬(0 < k ∧ offset + k.toNat < files.length)) :
    batchChunk files k offset = files.drop offset := by
  have hcount : batchFileCount files k offset = files.length - offset := by
    unfold batchFileCount
    rw [if_neg]
    omega
  rw [batchChunk, hcount]
  apply List.take_of_length_le
  simp

theorem batchedRun_join (files : List String) (k : Int) (offset : Nat) :
    (batchedRun files k offset).flatten = files.drop offset := by
  induction offset using batchedRun.induct files k with
  | case1 offset h ih =>
    rw [batchedRun, dif_pos h, List.flatten_cons, ih,
      batchChunk_of_loop files k offset h, List.drop_take_append_drop]
  | case2 offset h =>
    rw [batchedRun, dif_neg h]
    simp [batchChunk_of_last files k offset h]

theorem batchedRun_length (files : List String) (k : Int) (offset : Nat)
    (hk : 0 < k) (hoff : offset < files.length) :
    (batchedRun files k offset).length
      = (files.length - offset + k.toNat - 1) / k.toNat := by
  induction offset using batchedRun.induct files k with
  | case1 offset h ih =>
    rw [batchedRun, dif_pos h, List.length_cons, ih h.2]
    have hK : 0 < k.toNat := by omega
    have hsplit : files.length - offset + k.toNat - 1
        = (files.length - (offset + k.toNat) + k.toNat - 1) + k.toNat := by omega
    rw [hsplit, Nat.add_div_right _ hK]
  | case2 offset h =>
    rw [batchedRun, dif_neg h]
    have hK : 0 < k.toNat := by omega
    have hrem : 0 < files.length - offset ∧ files.length - offset ≤ k.toNat := by omega
    have hsplit : files.length - offset + k.toNat - 1
        = (files.length - offset - 1) + k.toNat := by omega
    rw [List.length_singleton, hsplit, Nat.add_div_right _ hK,
      Nat.div_eq_of_lt (by omega)]

theorem batchedRun_getElem (files : List String) (k : Int) (offset : Nat)
    (hk : 0 < k) (hoff : offset < files.length) :
    ∀ i, i < (batchedRun files k offset).length →
      (batchedRun files k offset)[i]?
        = some ((files.drop (offset + i * k.toNat)).take k.toNat) := by
  induction offset using batchedRun.induct files k with
  | case1 offset h ih =>
    intro i hi
    rw [batchedRun, dif_pos h]
    cases i with
    | zero =>
      simp [batchChunk_of_loop files k offset h]
    | succ j =>
      rw [List.getElem?_cons_succ]
      have hj : j < (batchedRun files k (offset + k.toNat)).length := by
        rw [batchedRun, dif_pos h] at hi
        simpa using hi
      rw [ih h.2 j hj]
      have : offset + k.toNat + j * k.toNat = offset + (j + 1) * k.toNat := by ring
      rw [this]
  | case2 offset h =>
    intro i hi
    rw [batchedRun, dif_neg h] at hi ⊢
    have hi0 : i = 0 := by
      simp only [List.length_singleton] at hi
      omega
    subst hi0
    rw [List.getElem?_cons_zero]
    have hrem : files.length - offset ≤ k.toNat := by omega
    rw [batchChunk_of_last files k offset h]
    have : (files.drop offset).take k.toNat = files.drop offset := by
      apply List.take_of_length_le
      simp
      omega
    simp [this]

theorem batchedRun_nonpos (files : List String) (k : Int) (hk : k ≤ 0) :
    batchedRun files k 0 = [files] := by
  rw [batchedRun, dif_neg (by omega)]
  have hcount : batchFileCount files k 0 = files.length := by
    unfold batchFileCount
    rw [if_neg (by omega)]
    omega
  rw [batchChunk, hcount]
  simp

/-! Helper lemmas about the per-unit execution loop. -/

theorem runUnits_all_ok (units : List (List String)) (s : Nat) :
    runUnits (fun _ => false) units s
      = { invocations := units, logged := units.flatten, outcome := .completed } := by
  induction units generalizing s with
  | nil => simp [runUnits]
  | cons u rest ih => simp [runUnits, ih]

theorem runUnits_first_fail (fails : Nat → Bool) (units : List (List String))
    (s i : Nat) (hi : i < units.length) (hf : fails (s + i) = true)
    (hprev : ∀ j, j < i → fails (s + j) = false) :
    runUnits fails units s
      = { invocations := units.take (i + 1), logged := (units.take i).flatten,
          outcome := .failed (s + i) } := by
  induction units generalizing s i with
  | nil => simp at hi
  | cons u rest ih =>
    cases i with
    | zero =>
      have hfs : fails s = true := by simpa using hf
      simp [runUnits, hfs]
    | succ j =>
      have h0 : fails s = false := by simpa using hprev 0 (Nat.succ_pos j)
      have hrec := ih (s + 1) j (by simpa using hi)
        (by have : s + 1 + j = s + (j + 1) := by omega
            rw [this]; exact hf)
        (by intro m hm
            have : s + 1 + m = s + (m + 1) := by omega
            rw [this]; exact hprev (m + 1) (by omega))
      have hidx : s + 1 + j = s + (j + 1) := by omega
      simp [runUnits, h0, hrec, hidx]

/-! Further shared helper lemmas. -/

theorem updateAssoc_cons {β : Type} (a : String) (b : β) (rest : List (String × β))
    (k : String) (f : β → β) :
    updateAssoc ((a, b) :: rest) k f
      = (if a = k then (a, f b) else (a, b)) :: updateAssoc rest k f := rfl

theorem lookup_updateAssoc {β : Type} (l : List (String × β)) (k : String) (f : β → β) :
    (updateAssoc l k f).lookup k = (l.lookup k).map f := by
  induction l with
  | nil => rfl
  | cons p rest ih =>
    obtain ⟨a, b⟩ := p
    rw [updateAssoc_cons]
    by_cases hak : a = k
    · subst hak
      rw [if_pos rfl]
      simp [List.lookup]
    · rw [if_neg hak]
      have hka : (k == a) = false := beq_eq_false_iff_ne.mpr (Ne.symm hak)
      simp only [List.lookup, hka]
      exact ih

theorem flatten_map_singleton (l : List String) :
    (l.map (fun f => [f])).flatten = l := by
  induction l with
  | nil => rfl
  | cons a rest ih => simp [ih]

theorem filter_not_mem_left (A B : List String) (hnd : (A ++ B).Nodup) :
    (A ++ B).filter (fun x => decide (x ∉ A)) = B := by
  rw [List.filter_append]
  have hdisj : A.Disjoint B := (List.nodup_append.mp hnd).2.2
  have hA : A.filter (fun x => decide (x ∉ A)) = [] := by
    simp only [List.filter_eq_nil_iff]
    intro a ha
    simp [ha]
  have hB : B.filter (fun x => decide (x ∉ A)) = B := by
    apply List.filter_eq_self.mpr
    intro b hb
    have : b ∉ A := fun hbA => hdisj hbA hb
    simp [this]
  rw [hA, hB, List.nil_append]

theorem unprocessed_after_failed_run (listOut : String → String → List String)
    (processed : List (String × String)) (pipelineName listFunction filePattern : String)
    (A B : List String)
    (hAB : GetUnprocessedFileList listOut processed pipelineName listFunction filePattern
            = A ++ B)
    (hnd : (A ++ B).Nodup) :
    GetUnprocessedFileList listOut
        (processed ++ A.map (fun f => (pipelineName, f)))
        pipelineName listFunction filePattern = B := by
  rw [GetUnprocessedFileList] at hAB ⊢
  have hstep : (listOut listFunction filePattern).filter
      (fun path => decide ((pipelineName, path) ∉
        processed ++ A.map (fun f => (pipelineName, f))))
      = ((listOut listFunction filePattern).filter
          (fun path => decide ((pipelineName, path) ∉ processed))).filter
          (fun path => decide (path ∉ A)) := by
    rw [List.filter_filter]
    apply List.filter_congr
    intro a _
    simp [List.mem_append, not_or, Bool.and_comm]
  rw [hstep, hAB, filter_not_mem_left A B hnd]

/-! Claim theorems. -/

/-- C1: for every EnumerableSet pipeline (one with a file_list_pipelines
row), the computed delta is exactly the set difference between the
enumerator output for the pipeline's list function and file pattern and the
ProcessedLog entries recorded for the pipeline name: a path is in the
returned delta iff it is in the enumerator output and has no processed_files
row for this pipeline. -/
theorem delta_is_set_difference (rows : List (String × FileListRow))
    (processed : List (String × String)) (listOut : String → String → List String)
    (pipelineName : String) (row : FileListRow)
    (hlook : rows.lookup pipelineName = some row) :
    ∃ fileList, GetUnprocessedFilesForPipeline rows processed listOut pipelineName
        = .ok fileList ∧
      ∀ path, path ∈ fileList.files ↔
        (path ∈ listOut row.listFunction row.filePattern ∧
         (pipelineName, path) ∉ processed) := by
  rw [GetUnprocessedFilesForPipeline, hlook]
  refine ⟨_, rfl, ?_⟩
  intro path
  simp [GetUnprocessedFileList, List.mem_filter]

/-- Witness for delta_is_set_difference at a concrete pipeline. -/
theorem delta_is_set_difference_witness :
    ∃ fileList, GetUnprocessedFilesForPipeline [("p", exampleFileListRow)] [("p", "a.csv")]
        (fun _ _ => ["a.csv", "b.csv"]) "p" = .ok fileList ∧
      ∀ path, path ∈ fileList.files ↔
        (path ∈ ["a.csv", "b.csv"] ∧ ("p", path) ∉ [("p", "a.csv")]) :=
  delta_is_set_difference [("p", exampleFileListRow)] [("p", "a.csv")]
    (fun _ _ => ["a.csv", "b.csv"]) "p" exampleFileListRow (by decide)

/-- C9: executing an EnumerableSet pipeline whose computed delta is empty is
a no-op reported as the non-fatal no-files outcome: the run returns normally
with no command invocation and no processed-log insertion. -/
theorem empty_delta_is_noop (rows : List (String × FileListRow))
    (processed : List (String × String)) (listOut : String → String → List String)
    (pipelineName : String) (fails : Nat → Bool) (row : FileListRow)
    (hlook : rows.lookup pipelineName = some row)
    (hdelta : GetUnprocessedFileList listOut processed pipelineName
                row.listFunction row.filePattern = []) :
    ExecuteFileListPipelineTop rows processed listOut pipelineName fails
      = .ok { invocations := [], logged := [], outcome := .noFiles } := by
  rw [ExecuteFileListPipelineTop, GetUnprocessedFilesForPipeline, hlook]
  have hrun : ExecuteFileListPipelineRun
      (GetUnprocessedFileList listOut processed pipelineName row.listFunction row.filePattern)
      row.batched (effMaxBatchSize row.maxBatchSize) fails
      = { invocations := [], logged := [], outcome := .noFiles } := by
    rw [ExecuteFileListPipelineRun, if_pos hdelta]
  simp [Bind.bind, Except.bind, Pure.pure, Except.pure, hrun]

/-- Witness for empty_delta_is_noop at a concrete pipeline whose enumerator
output is fully processed. -/
theorem empty_delta_is_noop_witness :
    ExecuteFileListPipelineTop [("p", exampleFileListRow)] [("p", "a.csv")]
        (fun _ _ => ["a.csv"]) "p" (fun _ => false)
      = .ok { invocations := [], logged := [], outcome := .noFiles } :=
  empty_delta_is_noop [("p", exampleFileListRow)] [("p", "a.csv")]
    (fun _ _ => ["a.csv"]) "p" (fun _ => false) exampleFileListRow
    (by decide) (by decide)

/-- C2: executing a batched EnumerableSet pipeline over a non-empty delta of
size n with effective maxBatchSize k invokes the user command once per chunk
of the chunk sequence; with 0 < k there are ceil(n/k) chunks, chunk i is the
item window at offsets i*k to min((i+1)*k, n)-1, and the chunks concatenate
to the full delta in order; with maxBatchSize absent (read back as -1) or
non-positive there is exactly one invocation carrying the entire delta. -/
theorem batched_execution_chunk_structure (files : List String) (mbs : Option Int)
    (hne : files ≠ []) :
    (0 < effMaxBatchSize mbs →
      ExecuteFileListPipelineRun files true (effMaxBatchSize mbs) (fun _ => false)
        = { invocations := batchedRun files (effMaxBatchSize mbs) 0,
            logged := files, outcome := .completed } ∧
      (batchedRun files (effMaxBatchSize mbs) 0).length
        = (files.length + (effMaxBatchSize mbs).toNat - 1) / (effMaxBatchSize mbs).toNat ∧
      (∀ i, i < (batchedRun files (effMaxBatchSize mbs) 0).length →
        (batchedRun files (effMaxBatchSize mbs) 0)[i]?
          = some ((files.drop (i * (effMaxBatchSize mbs).toNat)).take
                    (effMaxBatchSize mbs).toNat)) ∧
      (batchedRun files (effMaxBatchSize mbs) 0).flatten = files) ∧
    (effMaxBatchSize mbs ≤ 0 →
      ExecuteFileListPipelineRun files true (effMaxBatchSize mbs) (fun _ => false)
        = { invocations := [files], logged := files, outcome := .completed }) ∧
    (mbs = none → effMaxBatchSize mbs = -1) := by
  have hlen : 0 < files.length := List.length_pos.mpr hne
  have hflat : (batchedRun files (effMaxBatchSize mbs) 0).flatten = files := by
    simpa using batchedRun_join files (effMaxBatchSize mbs) 0
  have hrun : ExecuteFileListPipelineRun files true (effMaxBatchSize mbs) (fun _ => false)
      = runUnits (fun _ => false) (batchedRun files (effMaxBatchSize mbs) 0) 0 := by
    rw [ExecuteFileListPipelineRun, if_neg hne, if_pos rfl]
  refine ⟨?_, ?_, ?_⟩
  · intro hkpos
    refine ⟨?_, ?_, ?_, hflat⟩
    · rw [hrun, runUnits_all_ok, hflat]
    · simpa using batchedRun_length files (effMaxBatchSize mbs) 0 hkpos hlen
    · intro i hi
      simpa using batchedRun_getElem files (effMaxBatchSize mbs) 0 hkpos hlen i hi
  · intro hknp
    rw [hrun, batchedRun_nonpos files (effMaxBatchSize mbs) hknp, runUnits_all_ok]
    simp
  · intro hnone
    rw [hnone]
    rfl

/-- Witness for batched_execution_chunk_structure: three files, batch size
two, giving the two chunks of the spec scenario. -/
theorem batched_execution_chunk_structure_witness :
    ExecuteFileListPipelineRun ["a.csv", "b.csv", "c.csv"] true
        (effMaxBatchSize (some 2)) (fun _ => false)
      = { invocations := [["a.csv", "b.csv"], ["c.csv"]],
          logged := ["a.csv", "b.csv", "c.csv"], outcome := .completed } := by
  have h := ((batched_execution_chunk_structure ["a.csv", "b.csv", "c.csv"] (some 2)
    (by decide)).1 (by decide)).1
  rw [h]
  have hk : effMaxBatchSize (some 2) = 2 := rfl
  rw [hk, batchedRun, batchedRun]
  simp [batchChunk, batchFileCount]

/-- C3: when the user command invocation for unit i (chunk i in batched mode,
item i in non-batched mode) of an EnumerableSet run fails, every item of the
units before i has been appended to the processed log, no item of unit i or
any later unit has been appended, and a retried execution's delta is exactly
the items from unit i onward. -/
theorem midrun_failure_retry
    (listOut : String → String → List String) (processed : List (String × String))
    (pipelineName listFunction filePattern : String)
    (batched : Bool) (k : Int) (i : Nat) (fails : Nat → Bool)
    (files : List String) (units : List (List String))
    (hfiles : files = GetUnprocessedFileList listOut processed pipelineName
                listFunction filePattern)
    (hunits : units = if batched then batchedRun files k 0
                      else files.map (fun f => [f]))
    (hnd : files.Nodup)
    (hne : files ≠ [])
    (hi : i < units.length)
    (hfail : fails i = true)
    (hprev : ∀ j, j < i → fails j = false) :
    ExecuteFileListPipelineRun files batched k fails
      = { invocations := units.take (i + 1), logged := (units.take i).flatten,
          outcome := .failed i } ∧
    (∀ f, f ∈ (units.drop i).flatten → f ∉ (units.take i).flatten) ∧
    GetUnprocessedFileList listOut
        (processed ++ ((units.take i).flatten.map (fun f => (pipelineName, f))))
        pipelineName listFunction filePattern
      = (units.drop i).flatten := by
  have hflat : units.flatten = files := by
    rw [hunits]
    cases batched
    · simp [flatten_map_singleton]
    · simpa using batchedRun_join files k 0
  have hABfiles : (units.take i).flatten ++ (units.drop i).flatten = files := by
    rw [← List.flatten_append, List.take_append_drop, hflat]
  have hndAB : ((units.take i).flatten ++ (units.drop i).flatten).Nodup := by
    rw [hABfiles]; exact hnd
  have hrun : ExecuteFileListPipelineRun files batched k fails
      = runUnits fails units 0 := by
    rw [ExecuteFileListPipelineRun, if_neg hne, hunits]
    cases batched <;> simp
  have hff := runUnits_first_fail fails units 0 i hi (by simpa using hfail)
      (fun j hj => by simpa using hprev j hj)
  refine ⟨?_, ?_, ?_⟩
  · rw [hrun, hff]
    simp
  · intro f hfB hfA
    exact (List.nodup_append.mp hndAB).2.2 hfA hfB
  · exact unprocessed_after_failed_run listOut processed pipelineName listFunction
      filePattern _ _ (by rw [← hfiles]; exact hABfiles.symm) hndAB

/-- Witness for midrun_failure_retry: three files in two chunks, the second
invocation fails, the retried delta is the second chunk. -/
theorem midrun_failure_retry_witness :
    ExecuteFileListPipelineRun ["a.csv", "b.csv", "c.csv"] true 2
        (fun j => decide (j = 1))
      = { invocations := [["a.csv", "b.csv"], ["c.csv"]], logged := ["a.csv", "b.csv"],
          outcome := .failed 1 } ∧
    (∀ f, f ∈ ["c.csv"] → f ∉ ["a.csv", "b.csv"]) ∧
    GetUnprocessedFileList (fun _ _ => ["a.csv", "b.csv", "c.csv"])
        ([("p", "a.csv"), ("p", "b.csv")] : List (String × String)) "p" "list" "*.csv"
      = ["c.csv"] :=
  midrun_failure_retry (fun _ _ => ["a.csv", "b.csv", "c.csv"]) [] "p" "list" "*.csv"
    true 2 1 (fun j => decide (j = 1)) ["a.csv", "b.csv", "c.csv"]
    [["a.csv", "b.csv"], ["c.csv"]]
    (by decide)
    (by rw [if_pos rfl, batchedRun, batchedRun]
        simp [batchChunk, batchFileCount])
    (by decide) (by decide)
    (by decide) (by decide)
    (by decide)

/-- C4 counterexample: the dispatch switch in the source covers only the two
kind codes defined in pipeline.h.  A descriptor carrying any other kind code
(such as a code for an EnumerableSet/file-list pipeline, for which the
header defines no PipelineType value and the switch has no case) reaches the
fatal unknown-kind branch of both the execute and the reset dispatch rather
than an EnumerableSet strategy, so the dispatch is not a closed switch over
three kinds. -/
theorem dispatch_three_kinds_counterexample :
    ExecutePipelineKind Except.ok Except.ok 'f' emptyEngineState
      = .error (.internalError "unknown pipeline type") ∧
    ResetPipelineKind 'f' "p" emptyEngineState
      = .error (.internalError "unknown pipeline type") := by
  constructor <;> rfl

/-- C4 amended: dispatch is a closed switch over exactly the two kind codes
defined in pipeline.h, SEQUENCE_RANGE_PIPELINE and TIME_INTERVAL_PIPELINE:
for every descriptor carrying one of these two kinds, execution and reset
reach the strategy matching the kind and never the fatal branch, while every
other kind code (in particular, there is no code for EnumerableSet) reaches
the fatal unknown-kind error. -/
theorem dispatch_closed_over_defined_kinds
    (seqAct timeAct : EngineState → Except PgError EngineState)
    (c : PipelineType) (pipelineName : String) (st : EngineState) :
    (c = SEQUENCE_RANGE_PIPELINE →
      ExecutePipelineKind seqAct timeAct c st = seqAct st ∧
      ResetPipelineKind c pipelineName st = .ok (resetSeqResult st pipelineName)) ∧
    (c = TIME_INTERVAL_PIPELINE →
      ExecutePipelineKind seqAct timeAct c st = timeAct st ∧
      ResetPipelineKind c pipelineName st = .ok (resetTimeResult st pipelineName)) ∧
    (c ≠ SEQUENCE_RANGE_PIPELINE → c ≠ TIME_INTERVAL_PIPELINE →
      ExecutePipelineKind seqAct timeAct c st
        = .error (.internalError "unknown pipeline type") ∧
      ResetPipelineKind c pipelineName st
        = .error (.internalError "unknown pipeline type")) := by
  refine ⟨?_, ?_, ?_⟩
  · intro hc
    subst hc
    constructor
    · rw [ExecutePipelineKind, if_pos rfl]
    · rw [ResetPipelineKind, if_pos rfl]
      rfl
  · intro hc
    subst hc
    constructor
    · rw [ExecutePipelineKind, if_neg (by decide), if_pos rfl]
    · rw [ResetPipelineKind, if_neg (by decide), if_pos rfl]
      rfl
  · intro h1 h2
    constructor
    · rw [ExecutePipelineKind, if_neg h1, if_neg h2]
    · rw [ResetPipelineKind, if_neg h1, if_neg h2]

/-- Witness for dispatch_closed_over_defined_kinds at the sequence kind. -/
theorem dispatch_closed_over_defined_kinds_witness :
    ExecutePipelineKind Except.ok Except.ok SEQUENCE_RANGE_PIPELINE emptyEngineState
      = Except.ok emptyEngineState ∧
    ResetPipelineKind SEQUENCE_RANGE_PIPELINE "p" emptyEngineState
      = .ok (resetSeqResult emptyEngineState "p") :=
  (dispatch_closed_over_defined_kinds Except.ok Except.ok SEQUENCE_RANGE_PIPELINE "p"
    emptyEngineState).1 rfl

/-- C5: evaluation of the source at the failing input.  With a processed-log
holding no rows for pipeline p, the log-deletion operation deletes zero rows
and raises ERRCODE_UNDEFINED_OBJECT ("pipeline p cannot be found") instead
of succeeding without error; a deletion that removes at least one row
succeeds.  This contradicts the claimed idempotent zero-row deletion. -/
theorem remove_processed_zero_rows_raises :
    (RemoveProcessedFileList [("other", "f.csv")] "p" ⟨42, 0⟩).2
      = .error (.undefinedObject "pipeline p cannot be found") ∧
    (RemoveProcessedFileList [("other", "f.csv")] "p" ⟨42, 0⟩).1 = elevatedIdentity ∧
    (RemoveProcessedFileList [("p", "f.csv")] "p" ⟨42, 0⟩).2 = .ok [] := by
  refine ⟨rfl, rfl, rfl⟩

/-- C6 counterexample: resetting a TimeInterval pipeline whose configured
start time is 5 sets the last-processed boundary to timestamp 0, which is
not the configured start time. -/
theorem reset_time_interval_not_start_time :
    ResetPipelineKind TIME_INTERVAL_PIPELINE "p" engineBothCheckpoints
      = .ok (resetTimeResult engineBothCheckpoints "p") ∧
    ((resetTimeResult engineBothCheckpoints "p").timeStates.lookup "p").map
        TimeIntervalState.lastProcessedTime = some 0 ∧
    ((engineBothCheckpoints.timeStates.lookup "p").map TimeIntervalState.startTime
        = some 5) ∧
    some (0 : Int) ≠ some (5 : Int) := by
  refine ⟨rfl, rfl, rfl, by decide⟩

/-- C6 amended: for every existing pipeline, the reset dispatch sets the
sequence checkpoint's last-processed value back to 0, sets the time-interval
checkpoint's last-processed boundary to timestamp 0 (which coincides with
the configured start time only when that start time is 0), and leaves the
descriptor table untouched. -/
theorem reset_sets_initial_checkpoints (pipelineName : String) (st : EngineState)
    (seqRow : SequenceState) (timeRow : TimeIntervalState)
    (hs : st.seqStates.lookup pipelineName = some seqRow)
    (ht : st.timeStates.lookup pipelineName = some timeRow) :
    (∃ st1, ResetPipelineKind SEQUENCE_RANGE_PIPELINE pipelineName st = .ok st1 ∧
      st1.seqStates.lookup pipelineName = some { seqRow with lastProcessedValue := 0 } ∧
      st1.pipelines = st.pipelines) ∧
    (∃ st2, ResetPipelineKind TIME_INTERVAL_PIPELINE pipelineName st = .ok st2 ∧
      st2.timeStates.lookup pipelineName = some { timeRow with lastProcessedTime := 0 } ∧
      st2.pipelines = st.pipelines) := by
  constructor
  · refine ⟨resetSeqResult st pipelineName, ?_, ?_, rfl⟩
    · rw [ResetPipelineKind, if_pos rfl]
      rfl
    · have h1 : (resetSeqResult st pipelineName).seqStates
          = updateAssoc st.seqStates pipelineName
              (fun s => UpdateLastProcessedSequenceNumber s 0) := rfl
      rw [h1, lookup_updateAssoc, hs]
      rfl
  · refine ⟨resetTimeResult st pipelineName, ?_, ?_, rfl⟩
    · rw [ResetPipelineKind, if_neg (by decide), if_pos rfl]
      rfl
    · have h1 : (resetTimeResult st pipelineName).timeStates
          = updateAssoc st.timeStates pipelineName
              (fun s => UpdateLastProcessedTimeInterval s 0) := rfl
      rw [h1, lookup_updateAssoc, ht]
      rfl

/-- Witness for reset_sets_initial_checkpoints at the example checkpoints. -/
theorem reset_sets_initial_checkpoints_witness :
    (∃ st1, ResetPipelineKind SEQUENCE_RANGE_PIPELINE "p" engineBothCheckpoints = .ok st1 ∧
      st1.seqStates.lookup "p" = some { seqStateAt7 with lastProcessedValue := 0 } ∧
      st1.pipelines = engineBothCheckpoints.pipelines) ∧
    (∃ st2, ResetPipelineKind TIME_INTERVAL_PIPELINE "p" engineBothCheckpoints = .ok st2 ∧
      st2.timeStates.lookup "p" = some { tiStateStart5 with lastProcessedTime := 0 } ∧
      st2.pipelines = engineBothCheckpoints.pipelines) :=
  reset_sets_initial_checkpoints "p" engineBothCheckpoints seqStateAt7 tiStateStart5
    (by decide) (by decide)

/-- C7 counterexample: ReadPipelineDesc invoked for a missing pipeline by a
caller with identity 42 raises the not-found error while the elevated
bootstrap identity, not the caller's identity, is still in effect, so the
elevation is not reverted on this error exit path before control leaves the
registry operation. -/
theorem privilege_restore_counterexample :
    (ReadPipelineDesc [] "p" ⟨42, 0⟩).1 = elevatedIdentity ∧
    elevatedIdentity ≠ ⟨42, 0⟩ ∧
    (ReadPipelineDesc [] "p" ⟨42, 0⟩).2
      = .error (.undefinedObject "no such pipeline named p") := by
  refine ⟨rfl, by decide, rfl⟩

/-- C7 amended: each registry operation restores the caller's identity on
every exit path on which it returns normally; InsertProcessedFile restores
on all reachable paths (its zero-row error branch cannot fire); but the
pipeline-not-found error path of ReadPipelineDesc escapes with the elevated
bootstrap identity still in effect, leaving the revert to the surrounding
transaction machinery. -/
theorem privilege_restore_amended (pipelines : List (String × PipelineRow))
    (pipelineName : String) (ident : IdentityState) :
    (∀ row, pipelines.lookup pipelineName = some row →
      (ReadPipelineDesc pipelines pipelineName ident).1 = ident) ∧
    (pipelines.lookup pipelineName = none →
      (ReadPipelineDesc pipelines pipelineName ident).1 = elevatedIdentity ∧
      (ReadPipelineDesc pipelines pipelineName ident).2
        = .error (.undefinedObject ("no such pipeline named " ++ pipelineName))) ∧
    (∀ processed path, (InsertProcessedFile processed pipelineName path ident).1 = ident) := by
  refine ⟨?_, ?_, ?_⟩
  · intro row hrow
    rw [ReadPipelineDesc, hrow]
  · intro hnone
    rw [ReadPipelineDesc, hnone]
    exact ⟨rfl, rfl⟩
  · intro processed path
    rw [InsertProcessedFile]
    simp

/-- Witness for privilege_restore_amended: identity 42 is restored on the
successful read and on the log insert, and left elevated on the failing read. -/
theorem privilege_restore_amended_witness :
    (ReadPipelineDesc [("p", ownedRow)] "p" ⟨42, 0⟩).1 = ⟨42, 0⟩ ∧
    (ReadPipelineDesc [] "q" ⟨42, 0⟩).1 = elevatedIdentity ∧
    (InsertProcessedFile [] "p" "f.csv" ⟨42, 0⟩).1 = ⟨42, 0⟩ :=
  ⟨(privilege_restore_amended [("p", ownedRow)] "p" ⟨42, 0⟩).1 ownedRow (by decide),
   ((privilege_restore_amended [] "q" ⟨42, 0⟩).2.1 rfl).1,
   (privilege_restore_amended [] "p" ⟨42, 0⟩).2.2 [] "f.csv"⟩

/-- C8: for every existing pipeline, invoking the execute, reset, or drop
entry point as a caller that is neither superuser nor the recorded owner
fails with the permission-denied error — returning no modified state, for
any strategy actions, so no side effect happens — while a superuser or the
recorded owner passes the ownership check that runs before any side effect. -/
theorem ownership_enforcement
    (seqAct timeAct : EngineState → Except PgError EngineState)
    (pipelineName : String) (ident : IdentityState) (isSuper : Bool)
    (st : EngineState) (row : PipelineRow)
    (hlook : st.pipelines.lookup pipelineName = some row) :
    (isSuper = false → ident.userId ≠ row.ownerId →
      incremental_execute_pipeline seqAct timeAct pipelineName ident isSuper st
        = .error (.insufficientPrivilege
            ("permission denied for pipeline " ++ pipelineName)) ∧
      incremental_reset_pipeline pipelineName ident isSuper st
        = .error (.insufficientPrivilege
            ("permission denied for pipeline " ++ pipelineName)) ∧
      incremental_drop_pipeline pipelineName ident isSuper st
        = .error (.insufficientPrivilege
            ("permission denied for pipeline " ++ pipelineName))) ∧
    ((isSuper = true ∨ ident.userId = row.ownerId) →
      EnsurePipelineOwner isSuper ident.userId pipelineName row.ownerId = .ok ()) := by
  constructor
  · intro hsup hown
    have hens : EnsurePipelineOwner isSuper ident.userId pipelineName row.ownerId
        = .error (.insufficientPrivilege
            ("permission denied for pipeline " ++ pipelineName)) := by
      rw [EnsurePipelineOwner, hsup, if_neg (by simp), if_pos (Ne.symm hown)]
    refine ⟨?_, ?_, ?_⟩ <;>
      simp [incremental_execute_pipeline, incremental_reset_pipeline,
        incremental_drop_pipeline, ReadPipelineDesc, hlook, hens, Bind.bind, Except.bind]
  · intro hpass
    rw [EnsurePipelineOwner]
    rcases hpass with h | h
    · rw [h, if_pos rfl]
    · cases isSuper
      · rw [if_neg (by simp), if_neg (fun hne => hne h.symm)]
      · rw [if_pos rfl]

/-- Witness for ownership_enforcement: a caller with identity 8 is rejected
by all three entry points on a pipeline owned by user 7, and the owner
passes the check. -/
theorem ownership_enforcement_witness :
    (incremental_execute_pipeline Except.ok Except.ok "p" ⟨8, 0⟩ false ownedState
       = .error (.insufficientPrivilege ("permission denied for pipeline " ++ "p"))) ∧
    (incremental_drop_pipeline "p" ⟨8, 0⟩ false ownedState
       = .error (.insufficientPrivilege ("permission denied for pipeline " ++ "p"))) ∧
    EnsurePipelineOwner false 7 "p" ownedRow.ownerId = .ok () :=
  ⟨((ownership_enforcement Except.ok Except.ok "p" ⟨8, 0⟩ false ownedState ownedRow
      (by decide)).1 rfl (by decide)).1,
   ((ownership_enforcement Except.ok Except.ok "p" ⟨8, 0⟩ false ownedState ownedRow
      (by decide)).1 rfl (by decide)).2.2,
   (ownership_enforcement Except.ok Except.ok "p" ⟨7, 0⟩ false ownedState ownedRow
      (by decide)).2 (Or.inr rfl)⟩

/-- C10 counterexample: when the invoking caller is the bootstrap superuser
itself, the descriptor records ownerId = BOOTSTRAP_SUPERUSERID, which is
exactly the identity used to perform the insert, so the recorded owner is
not "never the bootstrap superuser identity". -/
theorem owner_id_bootstrap_counterexample :
    (InsertPipeline [] ⟨BOOTSTRAP_SUPERUSERID, 0⟩ "p" SEQUENCE_RANGE_PIPELINE 0
        "select 1").pipelines
      = [("p", { pipelineType := SEQUENCE_RANGE_PIPELINE,
                 ownerId := BOOTSTRAP_SUPERUSERID, sourceRelationId := 0,
                 command := "select 1" })] ∧
    (InsertPipeline [] ⟨BOOTSTRAP_SUPERUSERID, 0⟩ "p" SEQUENCE_RANGE_PIPELINE 0
        "select 1").insertUserId = BOOTSTRAP_SUPERUSERID := by
  refine ⟨rfl, rfl⟩

/-- C10 amended: the recorded ownerId always equals the caller identity
captured before the elevation, the insert itself runs as the bootstrap
superuser, the caller identity is restored afterwards, and the recorded
owner differs from the identity used to perform the insert whenever the
caller is not the bootstrap superuser itself. -/
theorem owner_id_is_preelevation_caller (pipelines : List (String × PipelineRow))
    (ident : IdentityState) (pipelineName : String) (pipelineType : PipelineType)
    (sourceRelationId : Nat) (command : String) :
    (InsertPipeline pipelines ident pipelineName pipelineType sourceRelationId
        command).pipelines
      = pipelines ++ [(pipelineName,
          { pipelineType := pipelineType, ownerId := ident.userId,
            sourceRelationId := sourceRelationId, command := command })] ∧
    (InsertPipeline pipelines ident pipelineName pipelineType sourceRelationId
        command).insertUserId = BOOTSTRAP_SUPERUSERID ∧
    (InsertPipeline pipelines ident pipelineName pipelineType sourceRelationId
        command).finalIdentity = ident ∧
    (ident.userId ≠ BOOTSTRAP_SUPERUSERID →
      ident.userId ≠ (InsertPipeline pipelines ident pipelineName pipelineType
        sourceRelationId command).insertUserId) := by
  refine ⟨rfl, rfl, rfl, ?_⟩
  intro h
  simpa [InsertPipeline, elevatedIdentity] using h

/-- Witness for owner_id_is_preelevation_caller: caller 42 is recorded as
owner and differs from the bootstrap identity that performed the insert. -/
theorem owner_id_is_preelevation_caller_witness :
    (InsertPipeline [] ⟨42, 0⟩ "p" SEQUENCE_RANGE_PIPELINE 0 "select 1").pipelines
      = [] ++ [("p", { pipelineType := SEQUENCE_RANGE_PIPELINE, ownerId := 42,
                       sourceRelationId := 0, command := "select 1" })] ∧
    (42 : Nat) ≠ (InsertPipeline [] ⟨42, 0⟩ "p" SEQUENCE_RANGE_PIPELINE 0
        "select 1").insertUserId :=
  ⟨(owner_id_is_preelevation_caller [] ⟨42, 0⟩ "p" SEQUENCE_RANGE_PIPELINE 0
      "select 1").1,
   (owner_id_is_preelevation_caller [] ⟨42, 0⟩ "p" SEQUENCE_RANGE_PIPELINE 0
      "select 1").2.2.2 (by decide)⟩

end Incremental
